import Mathlib

/-!
Shallow embedding of the BIOS/GRUB boot component of bootupd (`src/bios.rs`)
and proofs about its lifecycle operations.

External collaborators (block-device locator, package-database query, the
persisted-metadata store helpers of the shared component module, the EFI
boot-mode probe, filesystem probes and subprocess execution) are modelled as
an explicit environment record `Env`: each field gives the observable result
of one collaborator call.  The operations of `bios.rs` are translated
line by line against that environment.  Each operation returns its outcome
together with a trace of externally visible effect events (installer
invocations, generic-adoption-probe invocations, package-database queries,
persisted-metadata writes), so that claims of the form "no installer
invocation occurs" or "the persisted record is untouched" are statable.

Rust `Result` values become `Except Err`; a Rust panic (`expect`/`unwrap`)
becomes the `Outcome.panic` constructor, distinct from an ordinary error.
-/

/-- Build-time target architecture: the `cfg(target_arch = ...)` conditionals
of `bios.rs` select between exactly these two variants. -/
inductive Arch where
  | x86_64
  | powerpc64
deriving DecidableEq, Repr

/-- Modelled from the spec: an `openat::Dir` directory handle, reduced to its
raw file descriptor (the only observable `bios.rs` uses, via
`/proc/self/fd/...`). -/
structure Dir where
  fd : Nat
deriving DecidableEq, Repr

/-- Modelled from the spec: `ContentMetadata` (`model.rs` is not in scope) —
"{package identity, version, build timestamp}", the fingerprint used to
decide staleness. -/
structure ContentMetadata where
  pkg : String
  version : String
  timestamp : Nat
deriving DecidableEq, Repr

/-- Modelled from the spec: `Adoptable` (`model.rs` is not in scope) — the
opaque result of `query_adopt`, carrying the detected prior version. -/
structure Adoptable where
  version : String
deriving DecidableEq, Repr

/-- Modelled from the spec: `InstalledContent` (`model.rs` is not in scope) —
"{meta, filetree: optional content reference (unused by the BIOS variant),
adopted_from: optional prior version string}". -/
structure InstalledContent where
  meta : ContentMetadata
  filetree : Option Unit
  adopted_from : Option String
deriving DecidableEq, Repr

/-- Modelled from the spec: `ValidationResult` — "Skip | Pass | Fail"; the
BIOS variant always returns Skip. -/
inductive ValidationResult where
  | valid
  | skip
  | fail
deriving DecidableEq, Repr

/-- Command line of a subprocess invocation: program plus argument list. -/
structure Cmd where
  prog : String
  args : List String
deriving DecidableEq, Repr

/-- Observable result of running a subprocess (`std::process::Output`). -/
structure CmdOut where
  success : Bool
  stderr : String
deriving DecidableEq, Repr

/-- Error values.  `external` wraps an error produced by a collaborator and
propagated with `?`; the remaining constructors are the errors `bios.rs`
itself creates with `bail!`. -/
inductive Err where
  | external : String → Err
  | missingGrubModules : Err
  | missingBinary : String → Err
  | noUpdateMetadata : String → Err
  | runFailed : Cmd → Err
  | notAdoptable : Err
deriving DecidableEq, Repr

/-- Outcome of running a fallible Rust function: normal return, error return,
or process abort via `expect`/`unwrap` (a panic, not an `Err`). -/
inductive Outcome (α : Type) where
  | ok : α → Outcome α
  | error : Err → Outcome α
  | panic : String → Outcome α
deriving DecidableEq, Repr

/-- Lift a collaborator `Except` result into an `Outcome` (the effect of the
`?` operator). -/
def liftE {α : Type} : Except Err α → Outcome α
  | .ok a => .ok a
  | .error e => .error e

def Outcome.isError {α : Type} : Outcome α → Bool
  | .error _ => true
  | _ => false

def Outcome.isOk {α : Type} : Outcome α → Bool
  | .ok _ => true
  | _ => false

/-- Externally visible effect events, recorded in order of occurrence. -/
inductive Event where
  | installerInvoked : Cmd → Event
  | adoptProbeInvoked : Event
  | packageQuery : String → List String → Event
  | metadataWritten : String → ContentMetadata → Event
deriving DecidableEq, Repr

def Event.isInstall : Event → Bool
  | .installerInvoked _ => true
  | _ => false

def Event.isWrite : Event → Bool
  | .metadataWritten _ _ => true
  | _ => false

/-- Events that neither invoke the installer nor touch the persisted
metadata record. -/
def noSideEffects (evs : List Event) : Prop :=
  evs.all (fun ev => !ev.isInstall && !ev.isWrite) = true

/-- Environment of collaborator behaviours consumed by `bios.rs`.  Every
field gives the result one collaborator call would observably produce in the
current platform state. -/
structure Env where
  /-- Result of `component::get_component_update(dir, self)` for the BIOS
  component. -/
  get_component_update : Dir → Except Err (Option ContentMetadata)
  /-- Result of `efi::is_efi_booted()`. -/
  is_efi_booted : Except Err Bool
  /-- Result of `blockdev::get_single_device(mount_point)`. -/
  get_single_device : String → Except Err String
  /-- Result of `blockdev::get_bios_boot_partition(device)`. -/
  get_bios_boot_partition : String → Except Err (Option String)
  /-- Result of `component::query_adopt_state()`, the generic
  adoptable-prior-state probe. -/
  query_adopt_state : Except Err (Option Adoptable)
  /-- Result of `Path::try_exists` on an absolute path (used for the grub
  module directory). -/
  path_try_exists : String → Except Err Bool
  /-- Result of `Path::exists` on an absolute path (used for the installer
  binary). -/
  path_exists : String → Bool
  /-- Result of spawning the given command and collecting its output. -/
  run_command : Cmd → Except Err CmdOut
  /-- Result of `packagesystem::query_files(sysroot, paths)`. -/
  query_files : String → List String → Except Err ContentMetadata
  /-- Result of `component::write_update_metadata(sysroot, self, meta)`. -/
  write_update_metadata : String → ContentMetadata → Except Err Unit
  /-- Result of `std::fs::read_link(path)`. -/
  read_link : String → Except Err String

def Err.isExt : Err → Bool
  | .external _ => true
  | _ => false

/-- An `Except` result whose error (if any) is a collaborator-born
`external` error. -/
def extOnly {α : Type} : Except Err α → Prop
  | .error e => e.isExt = true
  | .ok _ => True

/-- Well-formed environment: collaborators only ever fail with their own
(`external`) errors, never with an error value that `bios.rs` itself mints.
This reflects provenance of `anyhow` errors in the source. -/
def Env.WF (env : Env) : Prop :=
  (∀ d, extOnly (env.get_component_update d)) ∧
  extOnly env.is_efi_booted ∧
  (∀ mp, extOnly (env.get_single_device mp)) ∧
  (∀ dev, extOnly (env.get_bios_boot_partition dev)) ∧
  extOnly env.query_adopt_state ∧
  (∀ p, extOnly (env.path_try_exists p)) ∧
  (∀ c, extOnly (env.run_command c)) ∧
  (∀ s l, extOnly (env.query_files s l)) ∧
  (∀ s m, extOnly (env.write_update_metadata s m)) ∧
  (∀ p, extOnly (env.read_link p))

/-- Rust `Path::new(a).join(b)` for the (relative `b`) uses in `bios.rs`:
append with a separator unless `a` already ends in one. -/
def pathJoin (a b : String) : String :=
  if a.data.getLast? == some '/' then a ++ b else a ++ "/" ++ b

/-- grub2-install file path (`GRUB_BIN` in `bios.rs`). -/
def GRUB_BIN : String := "usr/sbin/grub2-install"

namespace Bios

/-- Component name: `Bios::name` returns `"BIOS"`. -/
def name : String := "BIOS"

/-- Per-architecture grub module directory checked by `check_grub_modules`. -/
def moduleDir : Arch → String
  | .x86_64 => pathJoin "/usr/lib/grub" "i386-pc"
  | .powerpc64 => pathJoin "/usr/lib/grub" "powerpc-ieee1275"

/-- `Bios::check_grub_modules`: `try_exists` on the platform module
directory. -/
def check_grub_modules (arch : Arch) (env : Env) : Except Err Bool :=
  env.path_try_exists (moduleDir arch)

/-- Command line built by `run_grub_install` for each build-time variant. -/
def grubCmd (arch : Arch) (dest_root device : String) : Cmd :=
  match arch with
  | .x86_64 =>
      ⟨pathJoin "/" GRUB_BIN,
       ["--target", "i386-pc",
        "--boot-directory", pathJoin dest_root "boot",
        "--modules", "mdraid1x part_gpt",
        device]⟩
  | .powerpc64 =>
      ⟨pathJoin "/" GRUB_BIN,
       ["--target", "powerpc-ieee1275",
        "--boot-directory", pathJoin dest_root "boot",
        "--no-nvram",
        device]⟩

/-- `Bios::run_grub_install`: check grub modules, check the installer binary
at `/usr/sbin/grub2-install`, then run it; non-zero exit is an error naming
the command. -/
def run_grub_install (arch : Arch) (env : Env) (dest_root device : String) :
    Outcome Unit × List Event :=
  match check_grub_modules arch env with
  | .error e => (.error e, [])
  | .ok false => (.error .missingGrubModules, [])
  | .ok true =>
      let grub_install := pathJoin "/" GRUB_BIN
      if env.path_exists grub_install then
        let cmd := grubCmd arch dest_root device
        match env.run_command cmd with
        | .error e => (.error e, [.installerInvoked cmd])
        | .ok out =>
            if out.success then (.ok (), [.installerInvoked cmd])
            else (.error (.runFailed cmd), [.installerInvoked cmd])
      else (.error (.missingBinary grub_install), [])

/-- `Bios::get_bios_boot_partition`: a `get_single_device` error is logged
and yields `None`; a `get_bios_boot_partition` collaborator error hits
`.expect("get bios_boot part")` and panics. -/
def get_bios_boot_partition (env : Env) : Outcome (Option String) :=
  match env.get_single_device "/" with
  | .ok device =>
      match env.get_bios_boot_partition device with
      | .ok p => .ok p
      | .error _ => .panic "get bios_boot part"
  | .error _ => .ok none

/-- `Bios::query_adopt`: on x86_64 only, if EFI-booted and no BIOS-boot
partition is found, skip adoption; otherwise delegate to the generic
`query_adopt_state` probe. -/
def query_adopt (arch : Arch) (env : Env) :
    Outcome (Option Adoptable) × List Event :=
  match arch with
  | .x86_64 =>
      match env.is_efi_booted with
      | .error e => (.error e, [])
      | .ok true =>
          match get_bios_boot_partition env with
          | .panic m => (.panic m, [])
          | .error e => (.error e, [])
          | .ok none => (.ok none, [])
          | .ok (some _) => (liftE env.query_adopt_state, [.adoptProbeInvoked])
      | .ok false => (liftE env.query_adopt_state, [.adoptProbeInvoked])
  | .powerpc64 => (liftE env.query_adopt_state, [.adoptProbeInvoked])

/-- `Bios::adopt_update`: re-check `query_adopt`, bail if none, resolve the
single device backing `/`, reinstall grub, return metadata with
`adopted_from` set to the detected prior version. -/
def adopt_update (arch : Arch) (env : Env) (update : ContentMetadata) :
    Outcome InstalledContent × List Event :=
  let q := query_adopt arch env
  match q.1 with
  | .panic m => (.panic m, q.2)
  | .error e => (.error e, q.2)
  | .ok none => (.error .notAdoptable, q.2)
  | .ok (some meta) =>
      match env.get_single_device "/" with
      | .error e => (.error e, q.2)
      | .ok device =>
          let r := run_grub_install arch env "/" device
          match r.1 with
          | .error e => (.error e, q.2 ++ r.2)
          | .panic m => (.panic m, q.2 ++ r.2)
          | .ok _ =>
              (.ok { meta := update, filetree := none,
                     adopted_from := some meta.version },
               q.2 ++ r.2)

/-- `Bios::query_update`: delegates to `get_component_update`. -/
def query_update (env : Env) (sysroot : Dir) :
    Except Err (Option ContentMetadata) :=
  env.get_component_update sysroot

/-- `Bios::install`: bail when no build-time update metadata exists, else run
grub-install and return the metadata with `adopted_from = None`. -/
def install (arch : Arch) (env : Env) (src_root : Dir)
    (dest_root device : String) (_update_firmware : Bool) :
    Outcome InstalledContent × List Event :=
  match env.get_component_update src_root with
  | .error e => (.error e, [])
  | .ok none => (.error (.noUpdateMetadata name), [])
  | .ok (some meta) =>
      let r := run_grub_install arch env dest_root device
      match r.1 with
      | .error e => (.error e, r.2)
      | .panic m => (.panic m, r.2)
      | .ok _ =>
          (.ok { meta := meta, filetree := none, adopted_from := none }, r.2)

/-- `Bios::generate_update_metadata`: require the installer binary under the
sysroot, query the package database for it, persist and return the derived
record. -/
def generate_update_metadata (env : Env) (sysroot_path : String) :
    Outcome ContentMetadata × List Event :=
  let grub_install := pathJoin sysroot_path GRUB_BIN
  if env.path_exists grub_install then
    match env.query_files sysroot_path [grub_install] with
    | .error e => (.error e, [.packageQuery sysroot_path [grub_install]])
    | .ok meta =>
        match env.write_update_metadata sysroot_path meta with
        | .error e => (.error e, [.packageQuery sysroot_path [grub_install]])
        | .ok _ =>
            (.ok meta,
             [.packageQuery sysroot_path [grub_install],
              .metadataWritten sysroot_path meta])
  else (.error (.missingBinary grub_install), [])

/-- `Bios::run_update`: read the pending update metadata (`expect` panics if
none), resolve the sysroot path from its fd, resolve the single backing
device, reinstall grub, return metadata with `adopted_from = None`. -/
def run_update (arch : Arch) (env : Env) (sysroot : Dir)
    (_current : InstalledContent) : Outcome InstalledContent × List Event :=
  match query_update env sysroot with
  | .error e => (.error e, [])
  | .ok none => (.panic "update available", [])
  | .ok (some updatemeta) =>
      match env.read_link ("/proc/self/fd/" ++ toString sysroot.fd) with
      | .error e => (.error e, [])
      | .ok dest_root =>
          match env.get_single_device dest_root with
          | .error e => (.error e, [])
          | .ok device =>
              let r := run_grub_install arch env dest_root device
              match r.1 with
              | .error e => (.error e, r.2)
              | .panic m => (.panic m, r.2)
              | .ok _ =>
                  (.ok { meta := updatemeta, filetree := none,
                         adopted_from := none }, r.2)

/-- `Bios::validate`: always `Skip`. -/
def validate (_ic : InstalledContent) : Outcome ValidationResult :=
  .ok .skip

/-- `Bios::get_efi_vendor`: always `None`. -/
def get_efi_vendor (_d : Dir) : Outcome (Option String) :=
  .ok none

end Bios

/-! Shared structural lemmas about the operations. -/

theorem run_grub_install_snd (arch : Arch) (env : Env) (dest device : String) :
    (Bios.run_grub_install arch env dest device).2 = [] ∨
    (Bios.run_grub_install arch env dest device).2 =
      [Event.installerInvoked (Bios.grubCmd arch dest device)] := by
  unfold Bios.run_grub_install
  cases h : Bios.check_grub_modules arch env with
  | error e => simp
  | ok b =>
    cases b with
    | false => simp
    | true =>
      by_cases hp : env.path_exists (pathJoin "/" GRUB_BIN)
      · simp only [hp, if_true]
        cases hr : env.run_command (Bios.grubCmd arch dest device) with
        | error e => simp
        | ok out => by_cases hs : out.success <;> simp [hs]
      · simp [hp]

theorem run_grub_install_no_panic (arch : Arch) (env : Env)
    (dest device s : String) :
    (Bios.run_grub_install arch env dest device).1 ≠ .panic s := by
  unfold Bios.run_grub_install
  cases h : Bios.check_grub_modules arch env with
  | error e => simp
  | ok b =>
    cases b with
    | false => simp
    | true =>
      by_cases hp : env.path_exists (pathJoin "/" GRUB_BIN)
      · simp only [hp, if_true]
        cases hr : env.run_command (Bios.grubCmd arch dest device) with
        | error e => simp
        | ok out => by_cases hs : out.success <;> simp [hs]
      · simp [hp]

theorem run_grub_install_error_ne_notAdoptable (arch : Arch) (env : Env)
    (dest device : String) (e : Err) (hwf : Env.WF env)
    (h : (Bios.run_grub_install arch env dest device).1 = .error e) :
    e ≠ .notAdoptable := by
  obtain ⟨-, -, -, -, -, hte, hrc, -⟩ := hwf
  unfold Bios.run_grub_install at h
  cases hm : Bios.check_grub_modules arch env with
  | error e2 =>
    rw [hm] at h
    simp at h
    subst h
    have := hte (Bios.moduleDir arch)
    unfold Bios.check_grub_modules at hm
    rw [hm] at this
    simp [extOnly] at this
    intro hc; rw [hc] at this; simp [Err.isExt] at this
  | ok b =>
    rw [hm] at h
    cases b with
    | false => simp at h; subst h; simp
    | true =>
      by_cases hp : env.path_exists (pathJoin "/" GRUB_BIN)
      · simp only [hp, if_true] at h
        cases hr : env.run_command (Bios.grubCmd arch dest device) with
        | error e2 =>
          rw [hr] at h
          simp at h
          subst h
          have := hrc (Bios.grubCmd arch dest device)
          rw [hr] at this
          simp [extOnly] at this
          intro hc; rw [hc] at this; simp [Err.isExt] at this
        | ok out =>
          rw [hr] at h
          by_cases hs : out.success
          · simp [hs] at h
          · simp [hs] at h; subst h; simp
      · simp [hp] at h; subst h; simp

theorem get_bios_boot_partition_ne_error (env : Env) (e : Err) :
    Bios.get_bios_boot_partition env ≠ .error e := by
  unfold Bios.get_bios_boot_partition
  cases h : env.get_single_device "/" with
  | error e2 => simp
  | ok dev =>
    cases hb : env.get_bios_boot_partition dev with
    | error e2 => simp [hb]
    | ok p => simp [hb]

theorem query_adopt_snd (arch : Arch) (env : Env) :
    (Bios.query_adopt arch env).2 = [] ∨
    (Bios.query_adopt arch env).2 = [Event.adoptProbeInvoked] := by
  unfold Bios.query_adopt
  cases arch with
  | powerpc64 => simp
  | x86_64 =>
    cases he : env.is_efi_booted with
    | error e => simp
    | ok b =>
      cases b with
      | false => simp
      | true =>
        cases hg : Bios.get_bios_boot_partition env with
        | panic m => simp
        | error e => simp
        | ok p => cases p <;> simp

theorem query_adopt_error_isExt (arch : Arch) (env : Env) (e : Err)
    (hwf : Env.WF env)
    (h : (Bios.query_adopt arch env).1 = .error e) : e.isExt = true := by
  obtain ⟨-, hefi, -, -, hqas, -⟩ := hwf
  unfold Bios.query_adopt at h
  cases arch with
  | powerpc64 =>
    simp only [] at h
    cases hq : env.query_adopt_state with
    | error e2 =>
      rw [hq] at hqas
      simp [extOnly] at hqas
      simp [hq, liftE] at h
      subst h; exact hqas
    | ok o => simp [hq, liftE] at h
  | x86_64 =>
    cases he : env.is_efi_booted with
    | error e2 =>
      rw [he] at hefi
      simp [extOnly] at hefi
      rw [he] at h
      simp at h
      subst h; exact hefi
    | ok b =>
      rw [he] at h
      cases b with
      | false =>
        cases hq : env.query_adopt_state with
        | error e2 =>
          rw [hq] at hqas
          simp [extOnly] at hqas
          simp [hq, liftE] at h
          subst h; exact hqas
        | ok o => simp [hq, liftE] at h
      | true =>
        cases hg : Bios.get_bios_boot_partition env with
        | panic m => simp [hg] at h
        | error e2 => exact absurd hg (get_bios_boot_partition_ne_error env e2)
        | ok p =>
          cases p with
          | none => simp [hg] at h
          | some part =>
            cases hq : env.query_adopt_state with
            | error e2 =>
              rw [hq] at hqas
              simp [extOnly] at hqas
              simp [hg, hq, liftE] at h
              subst h; exact hqas
            | ok o => simp [hg, hq, liftE] at h

/-! Concrete environments used by witnesses and counterexamples. -/

/-- Sample metadata record (spec scenario 1). -/
def meta0 : ContentMetadata := ⟨"grub2-tools", "2.06", 100⟩

/-- Sample detected prior adoptable version. -/
def adopt0 : Adoptable := ⟨"2.04"⟩

/-- Sample installed-content record. -/
def ic0 : InstalledContent := ⟨meta0, none, none⟩

/-- Environment in which every collaborator call succeeds: update metadata
present, not EFI-booted, one backing device, BIOS-boot partition present,
adoptable prior state detected, all paths present, installer exits zero. -/
def envOk : Env where
  get_component_update := fun _ => .ok (some meta0)
  is_efi_booted := .ok false
  get_single_device := fun _ => .ok "/dev/vda"
  get_bios_boot_partition := fun _ => .ok (some "/dev/vda1")
  query_adopt_state := .ok (some adopt0)
  path_try_exists := fun _ => .ok true
  path_exists := fun _ => true
  run_command := fun _ => .ok ⟨true, ""⟩
  query_files := fun _ _ => .ok meta0
  write_update_metadata := fun _ _ => .ok ()
  read_link := fun _ => .ok "/sysroot"

theorem envOk_WF : Env.WF envOk := by
  refine ⟨fun d => ?_, ?_, fun mp => ?_, fun dev => ?_, ?_, fun p => ?_,
    fun c => ?_, fun s l => ?_, fun s m => ?_, fun p => ?_⟩ <;>
    simp [envOk, extOnly]

/-- EFI-booted environment in which device resolution fails everywhere
(for example two devices back the mount point). -/
def envEfiDevErr : Env :=
  { envOk with
    is_efi_booted := .ok true,
    get_single_device := fun _ => .error (.external "found 2 devices") }

/-- Non-EFI environment in which device resolution fails everywhere. -/
def envDevErr : Env :=
  { envOk with get_single_device := fun _ => .error (.external "found 2 devices") }

/-- Environment whose EFI boot-mode probe fails. -/
def envEfiErr : Env :=
  { envOk with is_efi_booted := .error (.external "efi probe failed") }

/-- EFI-booted environment with no BIOS-boot partition on the disk. -/
def envEfiNoPart : Env :=
  { envOk with
    is_efi_booted := .ok true,
    get_bios_boot_partition := fun _ => .ok none }

/-- Environment whose partition-table inspection collaborator fails. -/
def envPartErr : Env :=
  { envOk with get_bios_boot_partition := fun _ => .error (.external "ioctl failed") }

/-- Environment with no build-time update metadata recorded. -/
def envNoMeta : Env :=
  { envOk with get_component_update := fun _ => .ok none }

/-- Environment in which the installer binary is absent. -/
def envNoBin : Env :=
  { envOk with path_exists := fun _ => false }

/-- Environment in which the grub module directory is absent. -/
def envNoMod : Env :=
  { envOk with path_try_exists := fun _ => .ok false }

theorem isExt_ne_notAdoptable {e : Err} (h : e.isExt = true) :
    e ≠ .notAdoptable := by
  intro hc; subst hc; simp [Err.isExt] at h

/-- C1, counterexample.  In an EFI-booted state whose device locator fails
(two devices backing the mount point), `adopt_update` does not return the
device-resolution error unchanged: the failed probe makes `query_adopt`
report nothing adoptable, so `adopt_update` returns the state-mismatch
error instead. -/
theorem C1_counterexample :
    envEfiDevErr.get_single_device "/" = .error (.external "found 2 devices") ∧
    (Bios.adopt_update .x86_64 envEfiDevErr meta0).1 = .error .notAdoptable ∧
    (Bios.adopt_update .x86_64 envEfiDevErr meta0).1 ≠
      .error (.external "found 2 devices") := by
  refine ⟨rfl, rfl, ?_⟩
  decide

/-- C1, amended.  When the pending update metadata is readable, the sysroot
link resolves, the device locator is in a failing state, and `query_adopt`
still reports an adoptable state, then `run_update` and `adopt_update` both
return the device-resolution error unchanged, no installer invocation
occurs and the persisted metadata record is untouched. -/
theorem C1_device_error_propagates (arch : Arch) (env : Env) (sysroot : Dir)
    (cur : InstalledContent) (u m : ContentMetadata) (a : Adoptable)
    (destRoot : String) (e : Err)
    (hmeta : env.get_component_update sysroot = .ok (some m))
    (hlink : env.read_link ("/proc/self/fd/" ++ toString sysroot.fd) = .ok destRoot)
    (hdev : ∀ mp, env.get_single_device mp = .error e)
    (hq : (Bios.query_adopt arch env).1 = .ok (some a)) :
    Bios.run_update arch env sysroot cur = (.error e, []) ∧
    (Bios.adopt_update arch env u).1 = .error e ∧
    noSideEffects (Bios.adopt_update arch env u).2 := by
  refine ⟨?_, ?_, ?_⟩
  · unfold Bios.run_update Bios.query_update
    rw [hmeta]
    simp only [hlink, hdev destRoot]
  · unfold Bios.adopt_update
    simp only [hq, hdev "/"]
  · unfold Bios.adopt_update
    simp only [hq, hdev "/"]
    rcases query_adopt_snd arch env with h | h <;> rw [h] <;> exact rfl

/-- C1, witness for the amended theorem at a concrete non-EFI environment
whose device locator fails everywhere. -/
theorem C1_witness :
    Bios.run_update .x86_64 envDevErr ⟨3⟩ ic0 =
      (.error (.external "found 2 devices"), []) ∧
    (Bios.adopt_update .x86_64 envDevErr meta0).1 =
      .error (.external "found 2 devices") ∧
    noSideEffects (Bios.adopt_update .x86_64 envDevErr meta0).2 :=
  C1_device_error_propagates .x86_64 envDevErr ⟨3⟩ ic0 meta0 meta0 adopt0
    "/sysroot" (.external "found 2 devices") rfl rfl (fun _ => rfl) rfl

/-- C2, counterexample.  When the EFI boot-mode probe itself fails,
`query_adopt` neither returns `None` nor delegates to the generic probe: it
propagates the probe error with no `adoptProbeInvoked` event, even though
the generic probe would have reported an adoptable state. -/
theorem C2_counterexample :
    Bios.query_adopt .x86_64 envEfiErr =
      (.error (.external "efi probe failed"), []) ∧
    envEfiErr.query_adopt_state = .ok (some adopt0) ∧
    (Outcome.error (.external "efi probe failed") :
      Outcome (Option Adoptable)) ≠ .ok (some adopt0) := by
  refine ⟨rfl, rfl, ?_⟩
  decide

/-- C2, amended.  Provided the EFI boot-mode probe succeeds: if it reports
EFI and no BIOS-boot partition is found, `query_adopt` returns `None`
without invoking the generic probe; if it reports non-EFI, or EFI with a
BIOS-boot partition found, `query_adopt` delegates to the generic
adoptable-prior-state probe and returns its result. -/
theorem C2_adopt_gating (env : Env) (b : Bool) (p : String)
    (hefi : env.is_efi_booted = .ok b) :
    (b = true → Bios.get_bios_boot_partition env = .ok none →
      Bios.query_adopt .x86_64 env = (.ok none, [])) ∧
    (b = false →
      Bios.query_adopt .x86_64 env =
        (liftE env.query_adopt_state, [.adoptProbeInvoked])) ∧
    (b = true → Bios.get_bios_boot_partition env = .ok (some p) →
      Bios.query_adopt .x86_64 env =
        (liftE env.query_adopt_state, [.adoptProbeInvoked])) := by
  refine ⟨?_, ?_, ?_⟩
  · intro hb hpart
    subst hb
    unfold Bios.query_adopt
    simp only [hefi, hpart]
  · intro hb
    subst hb
    unfold Bios.query_adopt
    simp only [hefi]
  · intro hb hpart
    subst hb
    unfold Bios.query_adopt
    simp only [hefi, hpart]

/-- C2, witness for the amended theorem: skip under EFI with no BIOS-boot
partition, delegation under non-EFI boot. -/
theorem C2_witness :
    Bios.query_adopt .x86_64 envEfiNoPart = (.ok none, []) ∧
    Bios.query_adopt .x86_64 envOk =
      (liftE envOk.query_adopt_state, [.adoptProbeInvoked]) :=
  ⟨(C2_adopt_gating envEfiNoPart true "/dev/vda1" rfl).1 rfl rfl,
   (C2_adopt_gating envOk false "/dev/vda1" rfl).2.1 rfl⟩

/-- C3.  `adopt_update` re-evaluates `query_adopt` at call time: it fails
with the state-mismatch error exactly when `query_adopt` now returns `None`,
and on success the result's `meta` equals the update metadata passed in and
its `adopted_from` equals the version `query_adopt` detected. -/
theorem C3_adopt_recheck (arch : Arch) (env : Env) (u : ContentMetadata)
    (hwf : Env.WF env) :
    ((Bios.adopt_update arch env u).1 = .error .notAdoptable ↔
      (Bios.query_adopt arch env).1 = .ok none) ∧
    (∀ ic, (Bios.adopt_update arch env u).1 = .ok ic →
      ∃ a, (Bios.query_adopt arch env).1 = .ok (some a) ∧
        ic.meta = u ∧ ic.adopted_from = some a.version) := by
  unfold Bios.adopt_update
  cases hq : (Bios.query_adopt arch env).1 with
  | panic m => simp [hq]
  | error e =>
    have hne := isExt_ne_notAdoptable (query_adopt_error_isExt arch env e hwf hq)
    simp [hq, hne]
  | ok o =>
    cases o with
    | none => simp [hq]
    | some a =>
      cases hd : env.get_single_device "/" with
      | error e =>
        have he := hwf.2.2.1 "/"
        rw [hd] at he
        simp [extOnly] at he
        have hne := isExt_ne_notAdoptable he
        simp [hq, hd, hne]
      | ok dev =>
        cases hr : (Bios.run_grub_install arch env "/" dev).1 with
        | error e =>
          have hne := run_grub_install_error_ne_notAdoptable arch env "/" dev
            e hwf hr
          simp [hq, hd, hr, hne]
        | panic m =>
          simp [hq, hd, hr]
        | ok r =>
          simp only [hq, hd, hr]
          constructor
          · simp [hq]
          · intro ic h
            simp only [Outcome.ok.injEq] at h
            exact ⟨a, rfl, by rw [← h], by rw [← h]⟩

/-- C3, witness at the all-succeeding environment: the state-mismatch
equivalence, instantiated. -/
theorem C3_witness :
    (Bios.adopt_update .x86_64 envOk meta0).1 = .error .notAdoptable ↔
      (Bios.query_adopt .x86_64 envOk).1 = .ok none :=
  (C3_adopt_recheck .x86_64 envOk meta0 envOk_WF).1

/-- C4, counterexample.  A collaborator error from the partition probe is
not treated as a soft signal: `get_bios_boot_partition` hits
`.expect("get bios_boot part")` and aborts instead of returning `None`. -/
theorem C4_counterexample :
    envPartErr.get_bios_boot_partition "/dev/vda" = .error (.external "ioctl failed") ∧
    Bios.get_bios_boot_partition envPartErr = .panic "get bios_boot part" ∧
    Bios.get_bios_boot_partition envPartErr ≠ .ok none := by
  refine ⟨rfl, rfl, ?_⟩
  decide

/-- C4, amended.  A `get_single_device` error, and absence reported by
`get_bios_boot_partition`, are soft signals yielding `None`; a collaborator
error from `get_bios_boot_partition`, however, aborts via
`expect("get bios_boot part")` rather than yielding `None`. -/
theorem C4_soft_probe (env : Env) (e e2 : Err) (d : String) :
    (env.get_single_device "/" = .error e →
      Bios.get_bios_boot_partition env = .ok none) ∧
    (env.get_single_device "/" = .ok d →
      env.get_bios_boot_partition d = .ok none →
      Bios.get_bios_boot_partition env = .ok none) ∧
    (env.get_single_device "/" = .ok d →
      env.get_bios_boot_partition d = .error e2 →
      Bios.get_bios_boot_partition env = .panic "get bios_boot part") := by
  refine ⟨?_, ?_, ?_⟩ <;> intro h1 <;>
    first
      | (intro h2
         unfold Bios.get_bios_boot_partition
         simp only [h1, h2])
      | (unfold Bios.get_bios_boot_partition
         simp only [h1])

/-- C4, witness for the amended theorem: soft `None` on locator failure,
abort on partition-probe failure. -/
theorem C4_witness :
    Bios.get_bios_boot_partition envDevErr = .ok none ∧
    Bios.get_bios_boot_partition envPartErr = .panic "get bios_boot part" :=
  ⟨(C4_soft_probe envDevErr (.external "found 2 devices")
      (.external "ioctl failed") "/dev/vda").1 rfl,
   (C4_soft_probe envPartErr (.external "found 2 devices")
      (.external "ioctl failed") "/dev/vda").2.2 rfl rfl⟩

/-- C5.  Under the precondition that `query_update` reports a pending
update, `run_update` never panics (the `expect("update available")` branch
is unreachable) and any successful result carries exactly that metadata
with `adopted_from = None`. -/
theorem C5_run_update_precondition (arch : Arch) (env : Env) (sysroot : Dir)
    (cur : InstalledContent) (m : ContentMetadata)
    (h : env.get_component_update sysroot = .ok (some m)) :
    (∀ s, (Bios.run_update arch env sysroot cur).1 ≠ .panic s) ∧
    (∀ ic, (Bios.run_update arch env sysroot cur).1 = .ok ic →
      ic.meta = m ∧ ic.adopted_from = none) := by
  unfold Bios.run_update Bios.query_update
  rw [h]
  cases hl : env.read_link ("/proc/self/fd/" ++ toString sysroot.fd) with
  | error e => simp
  | ok destRoot =>
    cases hd : env.get_single_device destRoot with
    | error e => simp [hd]
    | ok device =>
      cases hr : (Bios.run_grub_install arch env destRoot device).1 with
      | error e => simp [hd, hr]
      | panic s => exact absurd hr (run_grub_install_no_panic arch env
          destRoot device s)
      | ok r =>
        simp only [hd, hr]
        constructor
        · intro s
          simp
        · intro ic hic
          simp only [Outcome.ok.injEq] at hic
          exact ⟨by rw [← hic], by rw [← hic]⟩

/-- C5, witness at the all-succeeding environment. -/
theorem C5_witness :
    ((Bios.run_update .x86_64 envOk ⟨3⟩ ic0).1 ≠ .panic "update available") ∧
    (ic0.meta = meta0 ∧ ic0.adopted_from = none) :=
  ⟨(C5_run_update_precondition .x86_64 envOk ⟨3⟩ ic0 meta0 rfl).1
      "update available",
   (C5_run_update_precondition .x86_64 envOk ⟨3⟩ ic0 meta0 rfl).2 ic0 rfl⟩

/-- C6.  When no build-time update metadata exists for the component,
`install` fails with the "no update metadata" error naming the component
(`Bios::name = "BIOS"`) and performs zero installer invocations. -/
theorem C6_install_no_metadata (arch : Arch) (env : Env) (src : Dir)
    (dest device : String) (fw : Bool)
    (h : env.get_component_update src = .ok none) :
    Bios.install arch env src dest device fw =
      (.error (.noUpdateMetadata Bios.name), []) ∧
    Bios.name = "BIOS" := by
  unfold Bios.install
  rw [h]
  exact ⟨rfl, rfl⟩

/-- C6, witness at a concrete environment without build-time metadata. -/
theorem C6_witness :
    Bios.install .x86_64 envNoMeta ⟨3⟩ "/sysroot" "/dev/vda" false =
      (.error (.noUpdateMetadata Bios.name), []) ∧
    Bios.name = "BIOS" :=
  C6_install_no_metadata .x86_64 envNoMeta ⟨3⟩ "/sysroot" "/dev/vda" false rfl

theorem run_grub_install_missing_bin (arch : Arch) (env : Env)
    (dest device : String)
    (h : env.path_exists (pathJoin "/" GRUB_BIN) = false) :
    (Bios.run_grub_install arch env dest device).1.isError = true ∧
    (Bios.run_grub_install arch env dest device).2 = [] := by
  unfold Bios.run_grub_install
  cases hm : Bios.check_grub_modules arch env with
  | error e => simp [Outcome.isError]
  | ok b =>
    cases b with
    | false => simp [Outcome.isError]
    | true => simp [h, Outcome.isError]

/-- C7.  When the installer binary is absent at its fixed path
`/usr/sbin/grub2-install` (the live root joined with `GRUB_BIN`), `install`
fails before any installer invocation: it returns an error and its event
trace contains no installer invocation. -/
theorem C7_missing_binary (arch : Arch) (env : Env) (src : Dir)
    (dest device : String) (fw : Bool)
    (h : env.path_exists (pathJoin "/" GRUB_BIN) = false) :
    (Bios.install arch env src dest device fw).1.isError = true ∧
    (Bios.install arch env src dest device fw).2.all
      (fun ev => !ev.isInstall) = true := by
  unfold Bios.install
  cases hm : env.get_component_update src with
  | error e => simp [hm, Outcome.isError]
  | ok o =>
    cases o with
    | none => simp [hm, Outcome.isError]
    | some meta =>
      obtain ⟨h1, h2⟩ := run_grub_install_missing_bin arch env dest device h
      simp only [hm]
      cases hr : (Bios.run_grub_install arch env dest device).1 with
      | error e => simp [hr, h2, Outcome.isError]
      | panic s => rw [hr] at h1; simp [Outcome.isError] at h1
      | ok r => rw [hr] at h1; simp [Outcome.isError] at h1

/-- C7, witness at a concrete environment without the installer binary. -/
theorem C7_witness :
    (Bios.install .x86_64 envNoBin ⟨3⟩ "/sysroot" "/dev/vda" false).1.isError
        = true ∧
    (Bios.install .x86_64 envNoBin ⟨3⟩ "/sysroot" "/dev/vda" false).2.all
      (fun ev => !ev.isInstall) = true :=
  C7_missing_binary .x86_64 envNoBin ⟨3⟩ "/sysroot" "/dev/vda" false rfl

/-- C8.  `generate_update_metadata` fails with an error naming the missing
installer binary, with no package query performed, when the binary is absent
under the sysroot; when the binary is present and the package query and
metadata write succeed, it persists the derived record and returns the same
record it persisted. -/
theorem C8_generate_metadata (env : Env) (sp : String) (m : ContentMetadata) :
    (env.path_exists (pathJoin sp GRUB_BIN) = false →
      Bios.generate_update_metadata env sp =
        (.error (.missingBinary (pathJoin sp GRUB_BIN)), [])) ∧
    (env.path_exists (pathJoin sp GRUB_BIN) = true →
      env.query_files sp [pathJoin sp GRUB_BIN] = .ok m →
      env.write_update_metadata sp m = .ok () →
      Bios.generate_update_metadata env sp =
        (.ok m, [.packageQuery sp [pathJoin sp GRUB_BIN],
          .metadataWritten sp m])) := by
  constructor
  · intro h
    unfold Bios.generate_update_metadata
    simp [h]
  · intro h h1 h2
    unfold Bios.generate_update_metadata
    simp [h, h1, h2]

/-- C8, witness: missing binary under the sysroot versus the succeeding
derive-persist-return path. -/
theorem C8_witness :
    Bios.generate_update_metadata envNoBin "/sysroot" =
      (.error (.missingBinary (pathJoin "/sysroot" GRUB_BIN)), []) ∧
    Bios.generate_update_metadata envOk "/sysroot" =
      (.ok meta0, [.packageQuery "/sysroot" [pathJoin "/sysroot" GRUB_BIN],
        .metadataWritten "/sysroot" meta0]) :=
  ⟨(C8_generate_metadata envNoBin "/sysroot" meta0).1 rfl,
   (C8_generate_metadata envOk "/sysroot" meta0).2 rfl rfl rfl⟩

/-- C9, counterexample.  On the powerpc64 build variant the installer
invocation carries no module list at all (`--no-nvram` replaces it), so
"every installer invocation is constructed with ... a fixed module list
forced in" fails on that build. -/
theorem C9_counterexample :
    (Bios.run_grub_install .powerpc64 envOk "/" "/dev/vda").2 =
      [Event.installerInvoked (Bios.grubCmd .powerpc64 "/" "/dev/vda")] ∧
    (Bios.grubCmd .powerpc64 "/" "/dev/vda").args =
      ["--target", "powerpc-ieee1275", "--boot-directory", "/boot",
       "--no-nvram", "/dev/vda"] ∧
    ((Bios.grubCmd .powerpc64 "/" "/dev/vda").args.contains "--modules")
      = false := by
  refine ⟨rfl, ?_, ?_⟩ <;> decide

/-- C9, amended.  Each build variant invokes the installer with exactly its
fixed command line: the build-time firmware target flag, the boot-directory
flag set to the destination root joined with "boot", and the device path as
positional argument, with the fixed module list "mdraid1x part_gpt" forced
in on x86_64 and `--no-nvram` (no module list) on powerpc64; and the
loader-module directory is checked before any invocation, with the
`missingGrubModules` error, distinct from the tool's own `runFailed`
failure mode, when absent. -/
theorem C9_installer_cmdline (env : Env) (dest device : String) :
    Bios.grubCmd .x86_64 dest device =
      ⟨pathJoin "/" GRUB_BIN,
       ["--target", "i386-pc", "--boot-directory", pathJoin dest "boot",
        "--modules", "mdraid1x part_gpt", device]⟩ ∧
    Bios.grubCmd .powerpc64 dest device =
      ⟨pathJoin "/" GRUB_BIN,
       ["--target", "powerpc-ieee1275", "--boot-directory",
        pathJoin dest "boot", "--no-nvram", device]⟩ ∧
    (∀ arch c, Event.installerInvoked c ∈
        (Bios.run_grub_install arch env dest device).2 →
      c = Bios.grubCmd arch dest device) ∧
    (∀ arch, env.path_try_exists (Bios.moduleDir arch) = .ok false →
      Bios.run_grub_install arch env dest device =
        (.error .missingGrubModules, [])) ∧
    (∀ c, Err.missingGrubModules ≠ Err.runFailed c) := by
  refine ⟨rfl, rfl, ?_, ?_, ?_⟩
  · intro arch c hmem
    rcases run_grub_install_snd arch env dest device with h | h
    · rw [h] at hmem
      simp at hmem
    · rw [h] at hmem
      simp at hmem
      exact hmem
  · intro arch hmod
    unfold Bios.run_grub_install Bios.check_grub_modules
    simp [hmod]
  · intro c
    simp

/-- C9, witness: the x86_64 command line, and the module-directory check
rejecting before invocation at a concrete environment lacking the module
directory. -/
theorem C9_witness :
    Bios.grubCmd .x86_64 "/sysroot" "/dev/vda" =
      ⟨pathJoin "/" GRUB_BIN,
       ["--target", "i386-pc", "--boot-directory", pathJoin "/sysroot" "boot",
        "--modules", "mdraid1x part_gpt", "/dev/vda"]⟩ ∧
    Bios.run_grub_install .x86_64 envNoMod "/sysroot" "/dev/vda" =
      (.error .missingGrubModules, []) :=
  ⟨(C9_installer_cmdline envOk "/sysroot" "/dev/vda").1,
   (C9_installer_cmdline envNoMod "/sysroot" "/dev/vda").2.2.2.1 .x86_64 rfl⟩

/-- Installed-content record whose `adopted_from` is set, for exercising
C10 with an adopted prior state. -/
def icAdopted : InstalledContent := ⟨meta0, none, some "2.04"⟩

/-- Successful `run_update` results always carry `adopted_from = None` and
`filetree = None`. -/
theorem run_update_ok_fields (arch : Arch) (env : Env) (sysroot : Dir)
    (cur : InstalledContent) :
    ∀ ic, (Bios.run_update arch env sysroot cur).1 = .ok ic →
      ic.adopted_from = none ∧ ic.filetree = none := by
  unfold Bios.run_update Bios.query_update
  cases hm : env.get_component_update sysroot with
  | error e => simp
  | ok o =>
    cases o with
    | none => simp
    | some m =>
      cases hl : env.read_link ("/proc/self/fd/" ++ toString sysroot.fd) with
      | error e => simp
      | ok destRoot =>
        cases hd : env.get_single_device destRoot with
        | error e => simp [hd]
        | ok device =>
          cases hr : (Bios.run_grub_install arch env destRoot device).1 with
          | error e => simp [hd, hr]
          | panic s => simp [hd, hr]
          | ok r =>
            simp only [hd, hr]
            intro ic hic
            simp only [Outcome.ok.injEq] at hic
            exact ⟨by rw [← hic], by rw [← hic]⟩

/-- C10.  `run_update` ignores its `current_installed` argument entirely:
for any two values of that argument the results are identical, and any
successful result has `adopted_from = None` and `filetree = None`. -/
theorem C10_run_update_ignores_current (arch : Arch) (env : Env)
    (sysroot : Dir) (c1 c2 : InstalledContent) :
    Bios.run_update arch env sysroot c1 = Bios.run_update arch env sysroot c2 ∧
    (∀ ic, (Bios.run_update arch env sysroot c1).1 = .ok ic →
      ic.adopted_from = none ∧ ic.filetree = none) :=
  ⟨rfl, run_update_ok_fields arch env sysroot c1⟩

/-- C10, witness: identical results for a fresh and an adopted prior
record, and the concrete successful result's fields. -/
theorem C10_witness :
    Bios.run_update .x86_64 envOk ⟨3⟩ ic0 =
      Bios.run_update .x86_64 envOk ⟨3⟩ icAdopted ∧
    (ic0.adopted_from = none ∧ ic0.filetree = none) :=
  ⟨(C10_run_update_ignores_current .x86_64 envOk ⟨3⟩ ic0 icAdopted).1,
   (C10_run_update_ignores_current .x86_64 envOk ⟨3⟩ ic0 icAdopted).2 ic0 rfl⟩
